import Mathlib

/-!
Verification of the TaskTide timer core (`src/Timer.tsx`).

The program is a React Pomodoro-style timer.  Its state machine is the pure
reducer `timerReducer`; the persistence layer is `getLocalStorage` /
`setLocalStorage`; the input handlers `handleWorkInputBlur` /
`handleBreakInputBlur` clamp the duration settings; a `useEffect` body fires
the phase transition when the countdown reaches zero.  This file is a shallow
embedding of those parts: JavaScript numbers used as integers become `Int`,
TypeScript string literals stay `String`, nondeterministic environment values
(entry ids from `Date.now()`/`Math.random()` and the formatted clock time)
become explicit parameters of the `PHASE_TRANSITION` action.
-/

/-- `SessionLog` interface from `Timer.tsx` (one completed-phase log entry). -/
structure SessionLog where
  id : String
  type : String
  duration : String
  time : String
deriving DecidableEq, Repr

/-- `TimerState` interface from `Timer.tsx`. -/
structure TimerState where
  secondsLeft : Int
  isRunning : Bool
  isBreak : Bool
  message : String
  workSessions : Int
  breakSessions : Int
  sessionLog : List SessionLog
deriving DecidableEq, Repr

/-- `TimerAction` union from `Timer.tsx`.  The `PHASE_TRANSITION` case carries
two extra environment inputs, `newId` (from `Date.now()`/`Math.random()`) and
`newTime` (from `toLocaleTimeString`), which the code reads from the ambient
clock when building the log entry. -/
inductive TimerAction where
  | TICK
  | PHASE_TRANSITION (workMinutes breakMinutes : Int) (autoStart : Bool)
      (newId newTime : String)
  | TOGGLE_TIMER (isBreak : Bool)
  | STOP
  | RESET (workMinutes : Int)
  | RESET_HISTORY
  | INIT_STATE (workSessions breakSessions : Int) (sessionLog : List SessionLog)

/-- `formatTime` from `Timer.tsx`: `MM:SS`, two-digit zero-padded via
`String(...).padStart(2, "0")`.  `Math.floor(x / 60)` on an integer is floor
division (`Int.fdiv`); JavaScript `%` keeps the dividend's sign (`Int.tmod`). -/
def formatTime (totalSeconds : Int) : String :=
  let pad2 : String → String := fun s =>
    String.mk (List.replicate (2 - s.length) '0') ++ s
  pad2 (toString (Int.fdiv totalSeconds 60)) ++ ":" ++
    pad2 (toString (Int.tmod totalSeconds 60))

/-- `timerReducer` from `Timer.tsx`, transcribed case by case. -/
def timerReducer (state : TimerState) (action : TimerAction) : TimerState :=
  match action with
  | .TICK =>
      { state with
        secondsLeft := if state.secondsLeft > 0 then state.secondsLeft - 1 else 0 }
  | .PHASE_TRANSITION workMinutes breakMinutes autoStart newId newTime =>
      let currentPhase := if state.isBreak then "Break" else "Work"
      let nextPhase := !state.isBreak
      let newSecondsLeft := (if nextPhase then breakMinutes else workMinutes) * 60
      { state with
        secondsLeft := newSecondsLeft
        isBreak := nextPhase
        isRunning := if nextPhase then true else autoStart
        message := if nextPhase then "Break time! 🎉" else "Back to work! 💪"
        workSessions :=
          if currentPhase = "Work" then state.workSessions + 1 else state.workSessions
        breakSessions :=
          if currentPhase = "Break" then state.breakSessions + 1 else state.breakSessions
        sessionLog :=
          { id := newId
            type := currentPhase
            duration := formatTime
              (if state.isBreak then breakMinutes * 60 else workMinutes * 60)
            time := newTime } :: state.sessionLog.take 49 }
  | .TOGGLE_TIMER isBreak =>
      { state with
        isRunning := !state.isRunning
        message := if isBreak then "Break time! ☕" else "Focus time! 🧠" }
  | .STOP => { state with isRunning := false }
  | .RESET workMinutes =>
      { state with
        isRunning := false
        isBreak := false
        secondsLeft := workMinutes * 60
        message := "Focus time! 🧠" }
  | .RESET_HISTORY =>
      { state with sessionLog := [], workSessions := 0, breakSessions := 0 }
  | .INIT_STATE workSessions breakSessions sessionLog =>
      { state with
        workSessions := workSessions
        breakSessions := breakSessions
        sessionLog := sessionLog }

/-- The initial state handed to `useReducer` in `Timer.tsx`. -/
def initialState : TimerState :=
  { secondsLeft := 25 * 60
    isRunning := false
    isBreak := false
    message := "Focus time! 🧠"
    workSessions := 0
    breakSessions := 0
    sessionLog := [] }

/-- Helper: the log produced by the phase-transition case of the reducer. -/
theorem transition_sessionLog_eq (s : TimerState) (wm bm : Int) (auto : Bool)
    (i t : String) :
    (timerReducer s (.PHASE_TRANSITION wm bm auto i t)).sessionLog =
      { id := i
        type := if s.isBreak then "Break" else "Work"
        duration := formatTime ((if s.isBreak then bm else wm) * 60)
        time := t } :: s.sessionLog.take 49 := by
  cases hb : s.isBreak <;> simp [timerReducer, hb]

/-- Helper: the countdown produced by the phase-transition case of the
reducer is the entered phase's configured duration times 60. -/
theorem transition_secondsLeft_eq (s : TimerState) (wm bm : Int) (auto : Bool)
    (i t : String) :
    (timerReducer s (.PHASE_TRANSITION wm bm auto i t)).secondsLeft =
      (if s.isBreak then wm else bm) * 60 := by
  cases hb : s.isBreak <;> simp [timerReducer, hb]

/-- Helper: `TICK` is the identity on a state whose countdown is zero. -/
theorem tick_at_zero_eq (s : TimerState) (h : s.secondsLeft = 0) :
    timerReducer s .TICK = s := by
  cases s
  simp_all [timerReducer]

/-- C1: the phase-transition case of the reducer: one prepended log entry
labelled with the completed phase and its configured duration, exactly one
counter bumped, `isBreak` flipped, countdown reset to the entered phase's
configured duration. -/
theorem phase_transition_effects (s : TimerState) (wm bm : Int) (auto : Bool)
    (i t : String) :
    (timerReducer s (.PHASE_TRANSITION wm bm auto i t)).sessionLog =
      { id := i
        type := if s.isBreak then "Break" else "Work"
        duration := formatTime ((if s.isBreak then bm else wm) * 60)
        time := t } :: s.sessionLog.take 49
    ∧ (timerReducer s (.PHASE_TRANSITION wm bm auto i t)).workSessions =
        (if s.isBreak then s.workSessions else s.workSessions + 1)
    ∧ (timerReducer s (.PHASE_TRANSITION wm bm auto i t)).breakSessions =
        (if s.isBreak then s.breakSessions + 1 else s.breakSessions)
    ∧ (timerReducer s (.PHASE_TRANSITION wm bm auto i t)).isBreak = !s.isBreak
    ∧ (timerReducer s (.PHASE_TRANSITION wm bm auto i t)).secondsLeft =
        (if s.isBreak then wm else bm) * 60 := by
  cases hb : s.isBreak <;>
    simp [timerReducer, hb, mul_comm]

/-- C2: after a phase transition the running flag is `true` when the entered
phase is Break (`s.isBreak = false` before the flip) and equals `autoStart`
when the entered phase is Work (`s.isBreak = true` before the flip). -/
theorem phase_transition_isRunning (s : TimerState) (wm bm : Int) (auto : Bool)
    (i t : String) :
    (timerReducer s (.PHASE_TRANSITION wm bm auto i t)).isRunning =
      (if s.isBreak then auto else true) := by
  cases hb : s.isBreak <;> simp [timerReducer, hb]

/-- C6: `RESET` always returns to an idle work phase with the full configured
work duration on the clock, whatever the previous state was. -/
theorem reset_effects (s : TimerState) (wm : Int) :
    (timerReducer s (.RESET wm)).isBreak = false
    ∧ (timerReducer s (.RESET wm)).isRunning = false
    ∧ (timerReducer s (.RESET wm)).secondsLeft = wm * 60 := by
  simp [timerReducer]

/-- C7: `RESET_HISTORY` zeroes both counters and empties the log while leaving
the countdown, the running flag and the phase untouched. -/
theorem reset_history_effects (s : TimerState) :
    (timerReducer s .RESET_HISTORY).workSessions = 0
    ∧ (timerReducer s .RESET_HISTORY).breakSessions = 0
    ∧ (timerReducer s .RESET_HISTORY).sessionLog = []
    ∧ (timerReducer s .RESET_HISTORY).secondsLeft = s.secondsLeft
    ∧ (timerReducer s .RESET_HISTORY).isRunning = s.isRunning
    ∧ (timerReducer s .RESET_HISTORY).isBreak = s.isBreak := by
  simp [timerReducer]

/-- C10: `TICK` only ever touches `secondsLeft`: it decrements a positive
countdown by one, is the identity on a state whose countdown is already zero,
and never produces a negative countdown. -/
theorem tick_effects (s : TimerState) :
    ((timerReducer s .TICK).isRunning = s.isRunning
      ∧ (timerReducer s .TICK).isBreak = s.isBreak
      ∧ (timerReducer s .TICK).workSessions = s.workSessions
      ∧ (timerReducer s .TICK).breakSessions = s.breakSessions
      ∧ (timerReducer s .TICK).sessionLog = s.sessionLog)
    ∧ (0 < s.secondsLeft → (timerReducer s .TICK).secondsLeft = s.secondsLeft - 1)
    ∧ (s.secondsLeft = 0 → timerReducer s .TICK = s)
    ∧ 0 ≤ (timerReducer s .TICK).secondsLeft := by
  refine ⟨by simp [timerReducer], fun h => by simp [timerReducer, h], fun h => ?_, ?_⟩
  · cases s
    simp_all [timerReducer]
  · simp only [timerReducer]
    split <;> omega

/-- Closed instances of `tick_effects`: a running work state with 5 seconds
left ticks down to 4, and a state already at zero is left unchanged. -/
theorem tick_effects_witness :
    (timerReducer
        { initialState with secondsLeft := 5, isRunning := true } .TICK).secondsLeft = 4
    ∧ timerReducer { initialState with secondsLeft := 0 } .TICK =
        { initialState with secondsLeft := 0 } := by
  refine ⟨?_, ?_⟩
  · have h := (tick_effects { initialState with secondsLeft := 5, isRunning := true }).2.1
      (by decide)
    simpa using h
  · exact (tick_effects { initialState with secondsLeft := 0 }).2.2.1 rfl

/-- The three configuration values the component holds in React state and
passes into `PHASE_TRANSITION` / `RESET` dispatches. -/
structure TimerConfig where
  workMinutes : Int
  breakMinutes : Int
  autoStart : Bool

/-- The state-relevant part of the phase-transition `useEffect` body in
`Timer.tsx`: if `secondsLeft <= 0 && isRunning && !isLoggingRef.current` it
sets the logging flag, dispatches `PHASE_TRANSITION`, and clears the flag
again before returning (so the returned flag is `false`); otherwise it does
nothing.  Audio playback, the direct `setLocalStorage` mirror writes and the
interval restart have no effect on the reducer state and are omitted. -/
def phaseEffectBody (cfg : TimerConfig) (newId newTime : String)
    (s : TimerState) (isLogging : Bool) : TimerState × Bool :=
  if s.secondsLeft ≤ 0 ∧ s.isRunning = true ∧ isLogging = false then
    (timerReducer s
      (.PHASE_TRANSITION cfg.workMinutes cfg.breakMinutes cfg.autoStart newId newTime),
     false)
  else (s, isLogging)

/-- C4: exactly one transition per crossing of the countdown into zero while
running (durations at least one minute).  (1) On the crossing state the effect
body performs the `PHASE_TRANSITION` dispatch; (2) running the effect body
again on the resulting state is a no-op, because the new countdown is already
positive, so the same crossing can never fire a second transition; (3) a
`TICK` dispatched from the same event-loop pass before the effect runs leaves
the crossing state unchanged (the reducer clamps at zero), so the transition
is not lost or duplicated by that interleaving. -/
theorem phase_transition_once (cfg : TimerConfig) (i t : String) (s : TimerState)
    (hsl : s.secondsLeft = 0) (hrun : s.isRunning = true)
    (hwm : 1 ≤ cfg.workMinutes) (hbm : 1 ≤ cfg.breakMinutes) :
    phaseEffectBody cfg i t s false =
      (timerReducer s
        (.PHASE_TRANSITION cfg.workMinutes cfg.breakMinutes cfg.autoStart i t),
       false)
    ∧ (∀ i2 t2 : String,
        phaseEffectBody cfg i2 t2
          (timerReducer s
            (.PHASE_TRANSITION cfg.workMinutes cfg.breakMinutes cfg.autoStart i t))
          false =
        (timerReducer s
          (.PHASE_TRANSITION cfg.workMinutes cfg.breakMinutes cfg.autoStart i t),
         false))
    ∧ phaseEffectBody cfg i t (timerReducer s .TICK) false =
        phaseEffectBody cfg i t s false := by
  have hfire : phaseEffectBody cfg i t s false =
      (timerReducer s
        (.PHASE_TRANSITION cfg.workMinutes cfg.breakMinutes cfg.autoStart i t),
       false) := by
    unfold phaseEffectBody
    rw [if_pos ⟨le_of_eq hsl, hrun, rfl⟩]
  have hpos : 0 <
      (timerReducer s
        (.PHASE_TRANSITION cfg.workMinutes cfg.breakMinutes cfg.autoStart i t)).secondsLeft := by
    rw [transition_secondsLeft_eq s cfg.workMinutes cfg.breakMinutes
      cfg.autoStart i t]
    cases s.isBreak <;> simp <;> omega
  refine ⟨hfire, fun i2 t2 => ?_, ?_⟩
  · unfold phaseEffectBody
    rw [if_neg]
    intro hc
    omega
  · rw [tick_at_zero_eq s hsl]

/-- Closed instance of `phase_transition_once` at a concrete crossing state
with the default 25/5 configuration. -/
theorem phase_transition_once_witness :
    phaseEffectBody ⟨25, 5, false⟩ "id0" "12:00:00 PM"
        { initialState with secondsLeft := 0, isRunning := true } false =
      (timerReducer { initialState with secondsLeft := 0, isRunning := true }
        (.PHASE_TRANSITION 25 5 false "id0" "12:00:00 PM"), false) :=
  (phase_transition_once ⟨25, 5, false⟩ "id0" "12:00:00 PM"
    { initialState with secondsLeft := 0, isRunning := true }
    rfl rfl (by decide) (by decide)).1

/-- Reducer states reachable in a run of the component: the `useReducer`
initial state, closed under every dispatched action.  The `initState` step
takes an arbitrary payload, because the reducer does, and the initialization
effect dispatches `INIT_STATE` with whatever list `getLocalStorage` returned
for the `sessionLog` key — a check of the entries' shape, never of the list's
length. -/
inductive Reachable : TimerState → Prop where
  | init : Reachable initialState
  | tick {s : TimerState} : Reachable s → Reachable (timerReducer s .TICK)
  | transition {s : TimerState} {wm bm : Int} {auto : Bool} {i t : String} :
      Reachable s → Reachable (timerReducer s (.PHASE_TRANSITION wm bm auto i t))
  | toggle {s : TimerState} {b : Bool} :
      Reachable s → Reachable (timerReducer s (.TOGGLE_TIMER b))
  | stop {s : TimerState} : Reachable s → Reachable (timerReducer s .STOP)
  | reset {s : TimerState} {wm : Int} :
      Reachable s → Reachable (timerReducer s (.RESET wm))
  | resetHistory {s : TimerState} :
      Reachable s → Reachable (timerReducer s .RESET_HISTORY)
  | initState {s : TimerState} {ws bs : Int} {log : List SessionLog} :
      Reachable s → Reachable (timerReducer s (.INIT_STATE ws bs log))

/-- Reducer states the component reaches through its own UI-driven dispatches
alone, i.e. every action except the storage-seeded `INIT_STATE`. -/
inductive ReachableOwn : TimerState → Prop where
  | init : ReachableOwn initialState
  | tick {s : TimerState} : ReachableOwn s → ReachableOwn (timerReducer s .TICK)
  | transition {s : TimerState} {wm bm : Int} {auto : Bool} {i t : String} :
      ReachableOwn s → ReachableOwn (timerReducer s (.PHASE_TRANSITION wm bm auto i t))
  | toggle {s : TimerState} {b : Bool} :
      ReachableOwn s → ReachableOwn (timerReducer s (.TOGGLE_TIMER b))
  | stop {s : TimerState} : ReachableOwn s → ReachableOwn (timerReducer s .STOP)
  | reset {s : TimerState} {wm : Int} :
      ReachableOwn s → ReachableOwn (timerReducer s (.RESET wm))
  | resetHistory {s : TimerState} :
      ReachableOwn s → ReachableOwn (timerReducer s .RESET_HISTORY)

/-- C5 as the code actually behaves: every state reached through the
reducer's own actions other than `INIT_STATE` keeps the log at 50 entries or
fewer (each transition prepends the newest entry in front of `slice(0, 49)`,
so the order stays newest-first); a transition on a log already holding 50
entries prepends the new entry and silently drops the oldest, i.e. the last,
entry, keeping the length at exactly 50; indeed every transition result has
at most 50 entries, whatever the input length.  `INIT_STATE`, however, sets
the log verbatim to its payload, which is how an over-long stored log (see
`session_log_over_cap`) escapes the cap. -/
theorem session_log_capped :
    (∀ s : TimerState, ReachableOwn s → s.sessionLog.length ≤ 50)
    ∧ (∀ (s : TimerState) (wm bm : Int) (auto : Bool) (i t : String),
        s.sessionLog.length = 50 →
        (timerReducer s (.PHASE_TRANSITION wm bm auto i t)).sessionLog =
          { id := i
            type := if s.isBreak then "Break" else "Work"
            duration := formatTime ((if s.isBreak then bm else wm) * 60)
            time := t } :: s.sessionLog.dropLast
        ∧ (timerReducer s (.PHASE_TRANSITION wm bm auto i t)).sessionLog.length = 50)
    ∧ (∀ (s : TimerState) (wm bm : Int) (auto : Bool) (i t : String),
        (timerReducer s (.PHASE_TRANSITION wm bm auto i t)).sessionLog.length ≤ 50)
    ∧ (∀ (s : TimerState) (ws bs : Int) (log : List SessionLog),
        (timerReducer s (.INIT_STATE ws bs log)).sessionLog = log) := by
  refine ⟨?_, ?_, ?_, ?_⟩
  · intro s h
    induction h with
    | init => simp [initialState]
    | tick _ ih => simpa [timerReducer] using ih
    | transition _ ih =>
        simp only [timerReducer, List.length_cons, List.length_take]
        omega
    | toggle _ ih => simpa [timerReducer] using ih
    | stop _ ih => simpa [timerReducer] using ih
    | reset _ ih => simpa [timerReducer] using ih
    | resetHistory _ ih => simp [timerReducer]
  · intro s wm bm auto i t hlen
    have hdrop : s.sessionLog.take 49 = s.sessionLog.dropLast := by
      rw [List.dropLast_eq_take, hlen]
    have hlog := transition_sessionLog_eq s wm bm auto i t
    rw [hdrop] at hlog
    refine ⟨hlog, ?_⟩
    rw [hlog]
    simp [List.length_dropLast, hlen]
  · intro s wm bm auto i t
    simp only [timerReducer, List.length_cons, List.length_take]
    omega
  · intro s ws bs log
    simp [timerReducer]

/-- A concrete state whose log already holds 50 entries, for exercising the
truncation branch of `session_log_capped`. -/
def fullLogState : TimerState :=
  { initialState with
    sessionLog :=
      List.replicate 50 { id := "e", type := "Work", duration := "25:00", time := "noon" } }

/-- Closed instances of `session_log_capped`: the initial state respects the
bound, and a transition on a 50-entry log keeps the length at 50. -/
theorem session_log_capped_witness :
    initialState.sessionLog.length ≤ 50
    ∧ (timerReducer fullLogState
        (.PHASE_TRANSITION 25 5 false "id1" "1:00:00 PM")).sessionLog.length = 50 :=
  ⟨session_log_capped.1 initialState .init,
   (session_log_capped.2.1 fullLogState 25 5 false "id1" "1:00:00 PM"
      (by simp [fullLogState, initialState])).2⟩

/-- JavaScript values producible by `JSON.parse`, as far as `Timer.tsx`
inspects them (integers stand in for the JSON numbers the app stores). -/
inductive JVal where
  | null
  | bool (b : Bool)
  | num (n : Int)
  | str (s : String)
  | arr (elems : List JVal)
  | obj (fields : List (String × JVal))

/-- JavaScript truthiness of a parsed JSON value (`entry &&` in the
validator): `null`, `false`, `0` and `""` are falsy, everything else truthy. -/
def truthy : JVal → Bool
  | .null => false
  | .bool b => b
  | .num n => n != 0
  | .str s => s != ""
  | .arr _ => true
  | .obj _ => true

/-- JavaScript property access `v.k` on a parsed JSON value: a field of an
object, `undefined` (here `none`) otherwise. -/
def getField : JVal → String → Option JVal
  | .obj fields, k => fields.lookup k
  | _, _ => none

/-- `typeof v.k === "string"` for a possibly-`undefined` property. -/
def isStringField : Option JVal → Bool
  | some (.str _) => true
  | _ => false

/-- The per-entry check of `getLocalStorage` for the `sessionLog` key:
`entry && typeof entry.id === "string" && ["Work", "Break"].includes(entry.type)
&& typeof entry.duration === "string" && typeof entry.time === "string"`. -/
def validEntry (v : JVal) : Bool :=
  truthy v
    && isStringField (getField v "id")
    && (match getField v "type" with
        | some (.str s) => s == "Work" || s == "Break"
        | _ => false)
    && isStringField (getField v "duration")
    && isStringField (getField v "time")

/-- `Array.isArray(parsed) && parsed.every(validEntry)` from `getLocalStorage`. -/
def validSessionLog : JVal → Bool
  | .arr elems => elems.all validEntry
  | _ => false

/-- What `localStorage.getItem(key)` plus `JSON.parse` can produce for a key:
the key is absent (or holds the empty string, which `!item` also treats as
absent), the stored text is not valid JSON (`JSON.parse` throws and the
`catch` runs), or a parsed JSON value. -/
inductive StoredItem where
  | missing
  | malformedJson
  | json (v : JVal)

/-- `getLocalStorage("sessionLog", [])` from `Timer.tsx`: fallback `[]` when
the key is absent or unparsable, and the parsed value only when it passes
`validSessionLog`; otherwise the fallback again. -/
def loadSessionLog : StoredItem → JVal
  | .missing => .arr []
  | .malformedJson => .arr []
  | .json v => if validSessionLog v then v else .arr []

/-- `getLocalStorage(key, fallback)` from `Timer.tsx` for every key other
than `"sessionLog"` (`workMinutes`, `breakMinutes`, `autoStart`,
`workSessions`, `breakSessions`): the parsed value is returned with no shape
validation at all; only absence or a parse error yields the fallback. -/
def loadOtherKey : StoredItem → JVal → JVal
  | .missing, fallback => fallback
  | .malformedJson, fallback => fallback
  | .json v, _ => v

/-- C8: loading the `sessionLog` key never yields a partially trusted value:
whatever is stored, the result passes the full four-field entry validation
(the fallback `[]` passes it vacuously), and any parsed value that fails the
validation — not an array, or an entry missing `id`/`type`/`duration`/`time`
or holding a wrong-typed field — is replaced wholesale by the fallback. -/
theorem load_session_log_safe :
    (∀ item : StoredItem, validSessionLog (loadSessionLog item) = true)
    ∧ (∀ v : JVal, validSessionLog v = false →
        loadSessionLog (.json v) = JVal.arr []) := by
  constructor
  · intro item
    cases item with
    | missing => rfl
    | malformedJson => rfl
    | json v =>
        by_cases h : validSessionLog v = true
        · simp [loadSessionLog, h]
        · simp [loadSessionLog, h]
          rfl
  · intro v h
    simp [loadSessionLog, h]

/-- Closed instances of `load_session_log_safe`: a stored string instead of an
array, and an array whose single entry lacks the `type` field, both load as
the empty log. -/
theorem load_session_log_safe_witness :
    loadSessionLog (.json (.str "oops")) = JVal.arr []
    ∧ loadSessionLog
        (.json (.arr [.obj
          [("id", .str "a"), ("duration", .str "25:00"), ("time", .str "noon")]])) =
      JVal.arr [] :=
  ⟨load_session_log_safe.2 (.str "oops") rfl,
   load_session_log_safe.2
     (.arr [.obj [("id", .str "a"), ("duration", .str "25:00"), ("time", .str "noon")]])
     rfl⟩

/-- `Math.max(1, parseInt(input) || 1)` from the blur handlers in `Timer.tsx`.
The `parseInt` outcome is the `Option Int` argument: `none` models `NaN` (a
non-numeric entry), which `|| 1` replaces, as it does a parsed `0`. -/
def blurCoerce (parsedInput : Option Int) : Int :=
  max 1 (match parsedInput with
         | none => 1
         | some v => if v = 0 then 1 else v)

/-- `handleWorkInputBlur` from `Timer.tsx`: clamps the entered work minutes,
stores them (`setWorkMinutes(val)`, returned as the first component), and when
the work phase is active and the timer idle dispatches `RESET` with the new
value. -/
def handleWorkInputBlur (parsedInput : Option Int) (s : TimerState) :
    Int × TimerState :=
  let val := blurCoerce parsedInput
  (val,
   if !s.isBreak && !s.isRunning then timerReducer s (.RESET val) else s)

/-- `handleBreakInputBlur` from `Timer.tsx`: clamps the entered break minutes,
stores them (`setBreakMinutes(val)`, returned as the first component), and
when the break phase is active and the timer idle dispatches `RESET` — with
the unchanged `workMinutes`, not the new break value. -/
def handleBreakInputBlur (parsedInput : Option Int) (workMinutes : Int)
    (s : TimerState) : Int × TimerState :=
  let val := blurCoerce parsedInput
  (val,
   if s.isBreak && !s.isRunning then timerReducer s (.RESET workMinutes) else s)

/-- A state sitting idle in the break phase with 42 seconds on the clock. -/
def breakIdleState : TimerState :=
  { secondsLeft := 42
    isRunning := false
    isBreak := true
    message := "Break time! ☕"
    workSessions := 1
    breakSessions := 0
    sessionLog := [] }

/-- C3 fails on the code: blurring the break input with the value 3 while idle
in the break phase (configured work duration 25) stores break minutes 3 but
dispatches `RESET` with the work duration, leaving `secondsLeft = 1500` and
`isBreak = false` — not the claimed `3 * 60` with the break phase kept. -/
theorem break_blur_not_resynced :
    (handleBreakInputBlur (some 3) 25 breakIdleState).1 = 3
    ∧ (handleBreakInputBlur (some 3) 25 breakIdleState).2.secondsLeft = 1500
    ∧ (handleBreakInputBlur (some 3) 25 breakIdleState).2.isBreak = false
    ∧ ¬((handleBreakInputBlur (some 3) 25 breakIdleState).2.secondsLeft = 3 * 60
        ∧ (handleBreakInputBlur (some 3) 25 breakIdleState).2.isBreak = true) := by
  decide

/-- C3 as the code actually behaves: both blur handlers clamp the entered
value to at least 1 and store it; editing the work duration while idle in the
work phase resyncs `secondsLeft` to the new value times 60; editing the break
duration while idle in the break phase instead performs a full reset to an
idle work phase with `workMinutes * 60` on the clock; while the timer runs
neither handler touches the state. -/
theorem blur_handlers_behavior (p : Option Int) (wm : Int) (s : TimerState) :
    1 ≤ (handleWorkInputBlur p s).1
    ∧ 1 ≤ (handleBreakInputBlur p wm s).1
    ∧ (s.isBreak = false → s.isRunning = false →
        (handleWorkInputBlur p s).2.secondsLeft = (handleWorkInputBlur p s).1 * 60
        ∧ (handleWorkInputBlur p s).2.isBreak = false
        ∧ (handleWorkInputBlur p s).2.isRunning = false)
    ∧ (s.isBreak = true → s.isRunning = false →
        (handleBreakInputBlur p wm s).2.secondsLeft = wm * 60
        ∧ (handleBreakInputBlur p wm s).2.isBreak = false
        ∧ (handleBreakInputBlur p wm s).2.isRunning = false)
    ∧ (s.isRunning = true →
        (handleWorkInputBlur p s).2 = s ∧ (handleBreakInputBlur p wm s).2 = s) := by
  refine ⟨le_max_left 1 _, le_max_left 1 _, fun hb hr => ?_, fun hb hr => ?_,
    fun hr => ?_⟩
  · simp [handleWorkInputBlur, hb, hr, timerReducer]
  · simp [handleBreakInputBlur, hb, hr, timerReducer]
  · constructor <;> simp [handleWorkInputBlur, handleBreakInputBlur, hr]

/-- Closed instances of `blur_handlers_behavior`: a work edit of `0` while
idle in the work phase clamps to 1 and resyncs the clock, and a break edit of
`3` while idle in the break phase leaves `workMinutes * 60 = 1500` seconds. -/
theorem blur_handlers_behavior_witness :
    (handleWorkInputBlur (some 0) initialState).2.secondsLeft =
      (handleWorkInputBlur (some 0) initialState).1 * 60
    ∧ (handleBreakInputBlur (some 7) 25 breakIdleState).2.secondsLeft = 25 * 60 :=
  ⟨((blur_handlers_behavior (some 0) 25 initialState).2.2.1 rfl rfl).1,
   ((blur_handlers_behavior (some 7) 25 breakIdleState).2.2.2.1 rfl rfl).1⟩

/-- C9 fails on the code: `getLocalStorage` validates only the `sessionLog`
key, so a persisted `workMinutes` of `0` is returned verbatim, and the
initialization effect then dispatches `RESET` with it, putting a `0`-minute
work configuration (and a zero countdown) into effect — not an integer ≥ 1. -/
theorem load_minutes_unvalidated :
    loadOtherKey (.json (.num 0)) (.num 25) = JVal.num 0
    ∧ (timerReducer initialState (.RESET 0)).secondsLeft = 0
    ∧ ¬(1 ≤ (0 : Int)) :=
  ⟨rfl, rfl, by decide⟩

/-- C9 as the code actually behaves: the duration-input blur path always
yields a minute setting of at least 1, but values loaded from storage for
every key other than `sessionLog` — `workMinutes` and `breakMinutes`
included — are passed through without any validation or clamping. -/
theorem duration_clamping_scope (p : Option Int) (wm : Int) (s : TimerState)
    (v fallback : JVal) :
    1 ≤ (handleWorkInputBlur p s).1
    ∧ 1 ≤ (handleBreakInputBlur p wm s).1
    ∧ loadOtherKey (.json v) fallback = v :=
  ⟨le_max_left 1 _, le_max_left 1 _, rfl⟩

/-- A validated string property of a parsed entry, as the TypeScript cast
`return parsed` reads it: `getLocalStorage` guarantees the four fields are
strings, and the component then uses `parsed` as `SessionLog[]` unchanged. -/
def asString : Option JVal → String
  | some (.str s) => s
  | _ => ""

/-- One parsed log entry as the component consumes it after the cast. -/
def decodeEntry (v : JVal) : SessionLog :=
  { id := asString (getField v "id")
    type := asString (getField v "type")
    duration := asString (getField v "duration")
    time := asString (getField v "time") }

/-- A parsed and validated `sessionLog` array as the component consumes it:
`getLocalStorage("sessionLog", [])` hands this list to the `INIT_STATE`
dispatch verbatim. -/
def decodeLog : JVal → List SessionLog
  | .arr elems => elems.map decodeEntry
  | _ => []

/-- A stored `sessionLog` value holding 51 shape-valid entries. -/
def storedLog51 : JVal :=
  .arr (List.replicate 51 (.obj
    [("id", .str "e"), ("type", .str "Work"),
     ("duration", .str "25:00"), ("time", .str "noon")]))

/-- C5 fails on the code: a stored log of 51 well-formed entries passes the
shape-only validation of `getLocalStorage`, is returned verbatim, and the
initialization effect's `INIT_STATE` dispatch then produces a reachable state
whose session log holds 51 entries — more than the claimed 50-entry cap. -/
theorem session_log_over_cap :
    validSessionLog storedLog51 = true
    ∧ loadSessionLog (.json storedLog51) = storedLog51
    ∧ decodeLog storedLog51 =
        List.replicate 51 { id := "e", type := "Work", duration := "25:00", time := "noon" }
    ∧ Reachable (timerReducer initialState (.INIT_STATE 0 0 (decodeLog storedLog51)))
    ∧ (timerReducer initialState
        (.INIT_STATE 0 0 (decodeLog storedLog51))).sessionLog.length = 51
    ∧ ¬((timerReducer initialState
        (.INIT_STATE 0 0 (decodeLog storedLog51))).sessionLog.length ≤ 50) := by
  have hvalid : validSessionLog storedLog51 = true := by decide
  refine ⟨hvalid, by simp [loadSessionLog, hvalid], by decide,
    Reachable.initState Reachable.init, by decide, by decide⟩
